import Mathlib

/-!
Shallow embedding of the JustPaste download backend (`src/app.py`).

The embedded pieces are: the strategy selector `get_ydl_opts`, the
extraction invoker retry loop and the output resolver of
`download_single`, the orchestration handler `download_get` (workspace
lifecycle, history append, error translation), and the `history`
endpoint with its `as_dict` rendering.

Modelling conventions:
* filenames and paths are `List Char`;
* the external extraction engine (`yt_dlp.YoutubeDL.extract_info`) is an
  abstract function from the attempt index to an outcome, so one model
  covers every engine behaviour;
* the directory listing of the scratch workspace (`os.listdir`) is a
  parameter of the resolver;
* `logging.warning` calls are recorded as a list of (attempt number,
  cause) pairs;
* Python exceptions are `Except`; a handler that cannot raise is a total
  function;
* `datetime.isoformat` is an abstract rendering function `Nat → String`
  over the record's UTC timestamp.
-/

deriving instance DecidableEq for Except

namespace JustPaste

/-- `DEFAULT_USER_AGENT` from `src/app.py` lines 21-24. -/
def DEFAULT_USER_AGENT : String :=
  "Mozilla/5.0 (Windows NT 10.0; Win64; x64) AppleWebKit/537.36 (KHTML, like Gecko) Chrome/94.0.4606.81 Safari/537.36"

/-- `MAX_DOWNLOAD_RETRIES` from `src/app.py` line 25. -/
def MAX_DOWNLOAD_RETRIES : Nat := 2

/-- `MAX_WORKERS` from `src/app.py` line 26 (configured but unused). -/
def MAX_WORKERS : Nat := 4

/-- One entry of the `postprocessors` list in the mp3 branch of
`get_ydl_opts`. -/
structure PostProcessor where
  key : String
  preferredcodec : String
  preferredquality : String
deriving DecidableEq, Repr

/-- The options dictionary built by `get_ydl_opts`. A key that a branch
does not put in the dictionary is `none` (or `false` for the boolean
flags `skip_download` and `write_thumbnail`, whose engine default is
false). -/
structure YdlOpts where
  format : Option String := none
  outtmpl : List Char
  quiet : Bool := true
  ignoreerrors : Bool := false
  nocheckcertificate : Bool := false
  user_agent : Option String := none
  merge_output_format : Option String := none
  retries : Option Nat := none
  concurrent_fragment_downloads : Option Nat := none
  postprocessors : List PostProcessor := []
  skip_download : Bool := false
  write_thumbnail : Bool := false
deriving DecidableEq, Repr

/-- `get_ydl_opts` from `src/app.py` lines 47-88. The `quality` argument
is accepted but never read. The final `else` raises
`ValueError(f'Unsupported format: ...')`, embedded as `Except.error`. -/
def get_ydl_opts (file_format quality : String) (output_template : List Char) :
    Except String YdlOpts :=
  if file_format = "mp4" then
    .ok { format := some "bestvideo+bestaudio/best",
          outtmpl := output_template,
          quiet := true,
          ignoreerrors := false,
          nocheckcertificate := true,
          user_agent := some DEFAULT_USER_AGENT,
          merge_output_format := some "mp4",
          retries := some MAX_DOWNLOAD_RETRIES,
          concurrent_fragment_downloads := some 5 }
  else if file_format = "mp3" then
    .ok { format := some "bestaudio/best",
          outtmpl := output_template,
          postprocessors := [{ key := "FFmpegExtractAudio",
                               preferredcodec := "mp3",
                               preferredquality := "192" }],
          quiet := true,
          ignoreerrors := false,
          nocheckcertificate := true,
          user_agent := some DEFAULT_USER_AGENT,
          retries := some MAX_DOWNLOAD_RETRIES }
  else if file_format = "jpg" ∨ file_format = "png" then
    .ok { skip_download := true,
          write_thumbnail := true,
          outtmpl := output_template,
          quiet := true,
          ignoreerrors := false,
          nocheckcertificate := true }
  else
    .error ("Unsupported format: " ++ file_format)

/-- Outcome of the retry loop of `download_single` (lines 92-100):
how many engine attempts ran, the warnings logged (attempt number,
cause), and whether the loop ended in success or re-raised the final
failure. -/
structure InvokeResult where
  attempts : Nat
  warnings : List (Nat × String)
  result : Except String Unit
deriving DecidableEq, Repr

/-- The `for attempt in range(MAX_DOWNLOAD_RETRIES)` loop of
`download_single`: attempt `i` calls the engine; success breaks out of
the loop; failure logs the warning `Attempt i+1 failed` with its cause
and, on the last iteration, re-raises. `remaining` counts the loop
iterations still to run (including the current one), so the current
iteration is the final one exactly when `remaining = 1`; the loop
starts with `remaining = MAX_DOWNLOAD_RETRIES` and `i = 0`. -/
def attemptLoop (engine : Nat → Except String Unit) :
    Nat → Nat → List (Nat × String) → InvokeResult
  | 0, i, ws => ⟨i, ws, .ok ()⟩
  | r + 1, i, ws =>
    match engine i with
    | .ok _ => ⟨i + 1, ws, .ok ()⟩
    | .error e =>
      if r = 0 then
        ⟨i + 1, ws ++ [(i + 1, e)], .error e⟩
      else
        attemptLoop engine r (i + 1) (ws ++ [(i + 1, e)])

/-- The extraction invoker: the retry loop started at attempt index 0
with no warnings yet, with the fixed retry ceiling. -/
def invoke (engine : Nat → Except String Unit) : InvokeResult :=
  attemptLoop engine MAX_DOWNLOAD_RETRIES 0 []

/-- `os.path.basename`: the part of the path after the last slash. -/
def basename (p : List Char) : List Char :=
  ((p.reverse).takeWhile (fun c => c != '/')).reverse

/-- `os.path.dirname`: the part of the path before the last slash
(empty when the path has no slash). -/
def dirname (p : List Char) : List Char :=
  (((p.reverse).dropWhile (fun c => c != '/')).drop 1).reverse

/-- `os.path.join d f` for the shapes used here (`d` without a trailing
slash): `d ++ "/" ++ f`, or `f` alone when `d` is empty. -/
def pathJoin (d f : List Char) : List Char :=
  if d = [] then f else d ++ '/' :: f

/-- The matching predicate of the output resolver, line 106 of
`src/app.py`: `f.startswith(pfx) and f.lower().endswith(ext)`. Only the
filename is case-folded; the extension is used as given and no dot
separator is required. -/
def nameMatches (pfx ext f : List Char) : Bool :=
  pfx.isPrefixOf f && ext.isSuffixOf (f.map Char.toLower)

/-- The scan over `os.listdir(directory)` in lines 105-107: the first
entry, in listing order, that satisfies `nameMatches`. -/
def findFile (entries : List (List Char)) (pfx ext : List Char) :
    Option (List Char) :=
  entries.find? (fun f => nameMatches pfx ext f)

/-- The exceptions `download_single` can raise: the `ValueError` from
`get_ydl_opts`, the engine failure re-raised after the final attempt,
and the `FileNotFoundError` of the resolver. -/
inductive DlError where
  | unsupportedFormat (msg : String)
  | extractionFailed (msg : String)
  | fileNotFound (msg : String)
deriving DecidableEq, Repr

/-- Observable outcome of `download_single`: engine attempts made,
warnings logged, and either the resolved file path or the exception. -/
structure SingleResult where
  attempts : Nat
  warnings : List (Nat × String)
  result : Except DlError (List Char)
deriving DecidableEq, Repr

/-- `download_single` from `src/app.py` lines 90-108: build the options
(may raise `ValueError`), run the retry loop, then resolve the output
file by prefix/extension scan over the workspace listing. `prefix` in
the source is `os.path.basename(output_template).split('.')[0]`. -/
def download_single (engine : Nat → Except String Unit)
    (listing : List (List Char)) (url file_format quality : String)
    (output_template : List Char) : SingleResult :=
  match get_ydl_opts file_format quality output_template with
  | .error m => ⟨0, [], .error (.unsupportedFormat m)⟩
  | .ok _opts =>
    let r := invoke engine
    match r.result with
    | .error e => ⟨r.attempts, r.warnings, .error (.extractionFailed e)⟩
    | .ok _ =>
      let directory := dirname output_template
      let pfx := (basename output_template).takeWhile (fun c => c != '.')
      match findFile listing pfx file_format.toList with
      | some f => ⟨r.attempts, r.warnings, .ok (pathJoin directory f)⟩
      | none =>
        ⟨r.attempts, r.warnings,
          .error (.fileNotFound
            ("No ." ++ file_format ++ " found for " ++ String.mk pfx))⟩

/-- A row of the `DownloadHistory` table that `download_get` appends:
url, file_format, quality, and the server-assigned UTC timestamp
(`datetime.utcnow`), modelled as a `Nat`. -/
structure HistoryRecord where
  url : String
  file_format : String
  quality : String
  timestamp : Nat
deriving DecidableEq, Repr

/-- The state `download_get` touches: the set of existing scratch
directories and the history store. -/
structure AppState where
  dirs : List String
  history : List HistoryRecord
deriving DecidableEq, Repr

/-- The handler's HTTP response: a file attachment with its download
name, or a JSON error with a status code. -/
inductive HttpResponse where
  | file (path : List Char) (download_name : String)
  | err (status : Nat) (msg : String)
deriving DecidableEq, Repr

/-- Everything observable about one run of `download_get`: the response,
the final state, and the engine attempts and warnings that happened on
the way. The handler returning a `HandlerOut` on every input embeds the
fact that it never raises: every exception is caught and turned into a
500, and cleanup ignores its own errors. -/
structure HandlerOut where
  response : HttpResponse
  state : AppState
  engineAttempts : Nat
  warnings : List (Nat × String)
deriving DecidableEq, Repr

/-- Python truthiness of an optional query parameter: `not x` holds for
an absent parameter and for the empty string. -/
def falsy : Option String → Bool
  | none => true
  | some s => s == ""

/-- `str(e)` for the exceptions of `download_single` (each carries its
message). -/
def errMessage : DlError → String
  | .unsupportedFormat m => m
  | .extractionFailed m => m
  | .fileNotFound m => m

/-- `shutil.rmtree(tmp, ignore_errors=True)`: remove the scratch
directory; a total function, so the cleanup step can never raise. -/
def rmtree (dirs : List String) (tmp : String) : List String :=
  dirs.filter (fun d => d != tmp)

/-- `download_get` from `src/app.py` lines 114-135. Parameter check,
`tempfile.mkdtemp` (the fresh directory's name is the parameter
`tmpName`), the orchestrated `download_single` call on the template
`tmp/dl.%(ext)s`, the history append on success, the `except` branch
turning any exception into a 500 with the exception's text, and the
`finally` branch removing the workspace on every path. -/
def download_get (engine : Nat → Except String Unit)
    (listing : List (List Char)) (tmpName : String) (now : Nat)
    (url fmt quality : Option String) (st : AppState) : HandlerOut :=
  if falsy url || falsy fmt then
    ⟨.err 400 "Missing parameters", st, 0, []⟩
  else
    let u := url.getD ""
    let f := fmt.getD ""
    let q := if falsy quality then "best" else quality.getD ""
    let st1 : AppState := { st with dirs := st.dirs ++ [tmpName] }
    let out := pathJoin tmpName.toList "dl.%(ext)s".toList
    let r := download_single engine listing u f q out
    match r.result with
    | .ok path =>
      let st2 : AppState := { st1 with history := st1.history ++ [⟨u, f, q, now⟩] }
      ⟨.file path ("JustPaste." ++ f),
        { st2 with dirs := rmtree st2.dirs tmpName }, r.attempts, r.warnings⟩
    | .error e =>
      ⟨.err 500 (errMessage e),
        { st1 with dirs := rmtree st1.dirs tmpName }, r.attempts, r.warnings⟩

/-- A record as `DownloadHistory.as_dict` returns it (the sequential
`id` column is not modelled; the claims are about the other fields). -/
structure RenderedRecord where
  url : String
  file_format : String
  quality : String
  timestamp : String
deriving DecidableEq, Repr

/-- `DownloadHistory.as_dict` from `src/app.py` lines 35-42: the record
with its timestamp rendered by `isoformat` (abstract parameter `iso`)
and suffixed with a literal `Z`. -/
def as_dict (iso : Nat → String) (r : HistoryRecord) : RenderedRecord :=
  ⟨r.url, r.file_format, r.quality, iso r.timestamp ++ "Z"⟩

/-- The ordering of `DownloadHistory.timestamp.desc()`: `a` comes
before `b` when `a`'s timestamp is the later one. -/
def tsGe (a b : HistoryRecord) : Prop := b.timestamp ≤ a.timestamp

instance : DecidableRel tsGe := fun a b =>
  inferInstanceAs (Decidable (b.timestamp ≤ a.timestamp))

instance : IsTotal HistoryRecord tsGe :=
  ⟨fun a b => Nat.le_total b.timestamp a.timestamp⟩

instance : IsTrans HistoryRecord tsGe :=
  ⟨fun _ _ _ hab hbc => Nat.le_trans hbc hab⟩

/-- The `history` endpoint, `src/app.py` lines 137-140: all records
ordered by timestamp descending, each rendered by `as_dict`. The SQL
`order_by(... desc())` is embedded as a sort with respect to `tsGe`. -/
def history_endpoint (iso : Nat → String) (store : List HistoryRecord) :
    List RenderedRecord :=
  (List.insertionSort tsGe store).map (as_dict iso)

/-- Engine stub that succeeds on every attempt. -/
def engineOk : Nat → Except String Unit := fun _ => .ok ()

/-- Engine stub that fails on the first attempt and succeeds after. -/
def engineFailFirst : Nat → Except String Unit :=
  fun i => if i = 0 then .error "boom" else .ok ()

/-- Computation rule for `invoke` with the fixed retry ceiling 2: one
attempt when attempt 0 succeeds, otherwise a logged warning and a second
attempt whose failure is re-raised. -/
theorem invoke_eq (engine : Nat → Except String Unit) :
    invoke engine =
      match engine 0 with
      | .ok _ => ⟨1, [], .ok ()⟩
      | .error e₁ =>
        match engine 1 with
        | .ok _ => ⟨2, [(1, e₁)], .ok ()⟩
        | .error e₂ => ⟨2, [(1, e₁), (2, e₂)], .error e₂⟩ := by
  cases h0 : engine 0 with
  | ok u => simp [invoke, MAX_DOWNLOAD_RETRIES, attemptLoop, h0]
  | error e₁ =>
    cases h1 : engine 1 with
    | ok u => simp [invoke, MAX_DOWNLOAD_RETRIES, attemptLoop, h0, h1]
    | error e₂ => simp [invoke, MAX_DOWNLOAD_RETRIES, attemptLoop, h0, h1]

/-- C2: the extraction invoker makes at most 2 and at least 1 attempts;
success on any attempt short-circuits; each failed attempt logs exactly
one warning with the attempt number and cause; the failure propagates
exactly when the final attempt fails; failing on attempt 1 and
succeeding on attempt 2 yields success with exactly one warning. -/
theorem c2_retry_bounded_with_warnings (engine : Nat → Except String Unit) :
    (1 ≤ (invoke engine).attempts ∧
      (invoke engine).attempts ≤ MAX_DOWNLOAD_RETRIES) ∧
    ((engine 0 = .ok () → invoke engine = ⟨1, [], .ok ()⟩) ∧
     (∀ e, engine 0 = .error e → engine 1 = .ok () →
        invoke engine = ⟨2, [(1, e)], .ok ()⟩) ∧
     (∀ e₁ e₂, engine 0 = .error e₁ → engine 1 = .error e₂ →
        invoke engine = ⟨2, [(1, e₁), (2, e₂)], .error e₂⟩)) ∧
    ((∃ e, (invoke engine).result = .error e) ↔
      ((∃ e₁, engine 0 = .error e₁) ∧ (∃ e₂, engine 1 = .error e₂))) := by
  have hi := invoke_eq engine
  cases h0 : engine 0 with
  | ok u0 =>
    cases u0
    simp only [h0] at hi
    refine ⟨?_, ⟨?_, ?_, ?_⟩, ?_⟩ <;> simp [hi, h0, MAX_DOWNLOAD_RETRIES]
  | error e₁ =>
    simp only [h0] at hi
    cases h1 : engine 1 with
    | ok u1 =>
      cases u1
      simp only [h1] at hi
      refine ⟨?_, ⟨?_, ?_, ?_⟩, ?_⟩ <;> simp [hi, h0, h1, MAX_DOWNLOAD_RETRIES]
    | error e₂ =>
      simp only [h1] at hi
      refine ⟨?_, ⟨?_, ?_, ?_⟩, ?_⟩ <;> simp [hi, h0, h1, MAX_DOWNLOAD_RETRIES]

/-- C4: a requested format outside the supported set makes
`get_ydl_opts` fail with the unsupported-format `ValueError`; config
selection is a pure function (no I/O), and `download_single` then makes
zero engine attempts: selection precedes any extraction attempt. -/
theorem c4_unsupported_format_rejected (file_format q u : String)
    (t : List Char) (engine : Nat → Except String Unit)
    (listing : List (List Char))
    (h : file_format ∉ (["mp4", "mp3", "jpg", "png"] : List String)) :
    get_ydl_opts file_format q t =
      .error ("Unsupported format: " ++ file_format) ∧
    (download_single engine listing u file_format q t).attempts = 0 ∧
    (download_single engine listing u file_format q t).result =
      .error (.unsupportedFormat ("Unsupported format: " ++ file_format)) := by
  simp only [List.mem_cons, List.not_mem_nil, or_false, not_or] at h
  obtain ⟨h1, h2, h3, h4⟩ := h
  have hg : get_ydl_opts file_format q t =
      .error ("Unsupported format: " ++ file_format) := by
    unfold get_ydl_opts
    rw [if_neg h1, if_neg h2, if_neg (by simp [h3, h4])]
  refine ⟨hg, ?_, ?_⟩ <;> simp [download_single, hg]

/-- C4 witness: the unsupported format `avi` is rejected before any
engine attempt. -/
theorem c4_witness :
    get_ydl_opts "avi" "best" "tmpws/dl.%(ext)s".toList =
      .error ("Unsupported format: " ++ "avi") ∧
    (download_single engineOk [] "u" "avi" "best"
        "tmpws/dl.%(ext)s".toList).attempts = 0 ∧
    (download_single engineOk [] "u" "avi" "best"
        "tmpws/dl.%(ext)s".toList).result =
      .error (.unsupportedFormat ("Unsupported format: " ++ "avi")) :=
  c4_unsupported_format_rejected "avi" "best" "u" "tmpws/dl.%(ext)s".toList
    engineOk [] (by decide)

/-- C5 counterexample: the claim says every supported format's config
sets the fixed user-agent string and a bounded engine retry budget, but
the `jpg` branch of `get_ydl_opts` sets neither key. -/
theorem c5_counterexample :
    (get_ydl_opts "jpg" "best" "tmpws/dl.%(ext)s".toList).map
      (fun o => o.user_agent) = .ok none ∧
    (get_ydl_opts "jpg" "best" "tmpws/dl.%(ext)s".toList).map
      (fun o => o.retries) = .ok none := by
  constructor <;> rfl

/-- C5 amended: every supported format's config disables certificate
validation; the `mp4` and `mp3` configs additionally set the fixed
user-agent string and the engine retry budget 2, while the `jpg` and
`png` configs set neither a user-agent nor a retry budget. -/
theorem c5_network_options (q : String) (t : List Char) :
    (get_ydl_opts "mp4" q t).map
      (fun o => (o.nocheckcertificate, o.user_agent, o.retries)) =
      .ok (true, some DEFAULT_USER_AGENT, some MAX_DOWNLOAD_RETRIES) ∧
    (get_ydl_opts "mp3" q t).map
      (fun o => (o.nocheckcertificate, o.user_agent, o.retries)) =
      .ok (true, some DEFAULT_USER_AGENT, some MAX_DOWNLOAD_RETRIES) ∧
    (get_ydl_opts "jpg" q t).map
      (fun o => (o.nocheckcertificate, o.user_agent, o.retries)) =
      .ok (true, none, none) ∧
    (get_ydl_opts "png" q t).map
      (fun o => (o.nocheckcertificate, o.user_agent, o.retries)) =
      .ok (true, none, none) := by
  refine ⟨rfl, ?_, ?_, ?_⟩ <;> simp [get_ydl_opts, Except.map]

/-- `Char.ofNat` at a valid code point keeps the numeric value. -/
theorem char_toNat_ofNat_valid {n : Nat} (h : n.isValidChar) :
    (Char.ofNat n).toNat = n := by
  unfold Char.ofNat
  rw [dif_pos h]
  rfl

/-- No character lowercases to the uppercase letter `P`: uppercase
input moves into the lowercase range, and anything else is returned
unchanged, so it was not `P` to begin with. -/
theorem char_toLower_ne_P (c : Char) : Char.toLower c ≠ 'P' := by
  intro hc
  simp only [Char.toLower] at hc
  split at hc
  next hcond =>
    obtain ⟨h65, h90⟩ := hcond
    have hv : (Char.toNat c + 32).isValidChar := Or.inl (by omega)
    have hn := congrArg Char.toNat hc
    rw [char_toNat_ofNat_valid hv] at hn
    have hP : Char.toNat 'P' = 80 := rfl
    omega
  next hcond =>
    subst hc
    exact hcond (by constructor <;> decide)

/-- C10: the resolver's matching predicate needs no dot before the
extension and case-folds only the filename side: a name matches exactly
when it starts with the prefix and its lowercased form ends with the
format string as given; hence `dl_copymp4` matches `mp4`, while the
uppercase format `MP4` matches no entry at all. -/
theorem c10_matching_predicate :
    (∀ pfx ext f : List Char,
      nameMatches pfx ext f =
        (pfx.isPrefixOf f && ext.isSuffixOf (f.map Char.toLower))) ∧
    nameMatches "dl".toList "mp4".toList "dl_copymp4".toList = true ∧
    (∀ pfx f : List Char, nameMatches pfx "MP4".toList f = false) := by
  refine ⟨fun _ _ _ => rfl, by decide, fun pfx f => ?_⟩
  have hs : ("MP4".toList).isSuffixOf (f.map Char.toLower) = false := by
    rw [Bool.eq_false_iff]
    intro hsuf
    rw [List.isSuffixOf_iff_suffix] at hsuf
    obtain ⟨t, ht⟩ := hsuf
    have hp : 'P' ∈ f.map Char.toLower := by
      rw [← ht]
      refine List.mem_append_right t ?_
      decide
    obtain ⟨c, _, hcl⟩ := List.mem_map.mp hp
    exact char_toLower_ne_P c hcl
  unfold nameMatches
  rw [hs, Bool.and_false]

/-- C3: the output resolver returns the first listing entry (in listing
order) matching the prefix and, case-insensitively, the extension;
`none` exactly when no entry matches; on the workspace
`[dl.mp4, dl.info.json]` with prefix `dl` and extension `mp4` it picks
`dl.mp4`; and on an empty workspace `download_single` fails with the
`FileNotFoundError`. -/
theorem c3_output_resolver :
    (∀ (listing : List (List Char)) (pfx ext f : List Char),
      findFile listing pfx ext = some f ↔
        nameMatches pfx ext f = true ∧
        ∃ l₁ l₂, listing = l₁ ++ f :: l₂ ∧
          ∀ g ∈ l₁, nameMatches pfx ext g = false) ∧
    (∀ (listing : List (List Char)) (pfx ext : List Char),
      findFile listing pfx ext = none ↔
        ∀ g ∈ listing, nameMatches pfx ext g = false) ∧
    (findFile ["dl.mp4".toList, "dl.info.json".toList]
        "dl".toList "mp4".toList = some "dl.mp4".toList) ∧
    (∀ (u q : String) (t : List Char),
      (download_single engineOk [] u "mp4" q t).result =
        .error (.fileNotFound ("No .mp4 found for " ++
          String.mk ((basename t).takeWhile (fun c => c != '.'))))) := by
  refine ⟨?_, ?_, by decide, ?_⟩
  · intro listing pfx ext f
    unfold findFile
    rw [List.find?_eq_some]
    simp [Bool.not_eq_true']
  · intro listing pfx ext
    unfold findFile
    rw [List.find?_eq_none]
    simp [Bool.not_eq_true]
  · intro u q t
    simp [download_single, get_ydl_opts, invoke_eq, engineOk, findFile]

/-- C1: every run of `download_get` that reaches workspace creation
removes the scratch directory again before the handler exits, on the
success path and on every failure path alike; the cleanup step
(`rmtree` with errors ignored) is a total function, so it never raises
past its own boundary. -/
theorem c1_workspace_removed (engine : Nat → Except String Unit)
    (listing : List (List Char)) (tmpName : String) (now : Nat)
    (url fmt quality : Option String) (st : AppState)
    (hu : falsy url = false) (hf : falsy fmt = false) :
    tmpName ∉
      (download_get engine listing tmpName now url fmt quality st).state.dirs := by
  simp only [download_get, hu, hf, Bool.or_self, Bool.false_eq_true, if_false]
  split <;> simp [rmtree]

/-- C1 witness: a concrete successful run leaves no scratch directory
behind. -/
theorem c1_witness :
    "tmpws" ∉ (download_get engineOk ["dl.mp4".toList] "tmpws" 0
      (some "https://example.com/video") (some "mp4") none
      ⟨[], []⟩).state.dirs :=
  c1_workspace_removed engineOk ["dl.mp4".toList] "tmpws" 0
    (some "https://example.com/video") (some "mp4") none ⟨[], []⟩
    (by decide) (by decide)

/-- C6: a run of `download_get` that ends in a file response appends
exactly one `HistoryRecord` carrying the request's url, format and
(defaulted) quality to the history store, and the file resolution step
succeeded with exactly the path handed back. -/
theorem c6_history_append (engine : Nat → Except String Unit)
    (listing : List (List Char)) (tmpName : String) (now : Nat)
    (url fmt quality : Option String) (st : AppState)
    (hu : falsy url = false) (hf : falsy fmt = false)
    (p : List Char) (n : String)
    (hres : (download_get engine listing tmpName now url fmt quality st).response
      = .file p n) :
    (download_get engine listing tmpName now url fmt quality st).state.history =
      st.history ++ [⟨url.getD "", fmt.getD "",
        if falsy quality then "best" else quality.getD "", now⟩] ∧
    (download_single engine listing (url.getD "") (fmt.getD "")
        (if falsy quality then "best" else quality.getD "")
        (pathJoin tmpName.toList "dl.%(ext)s".toList)).result = .ok p := by
  simp only [download_get, hu, hf, Bool.or_self, Bool.false_eq_true,
    if_false] at hres ⊢
  cases hr : (download_single engine listing (url.getD "") (fmt.getD "")
      (if falsy quality then "best" else quality.getD "")
      (pathJoin tmpName.toList "dl.%(ext)s".toList)).result with
  | ok path =>
    simp only [hr] at hres ⊢
    cases hres
    simp
  | error e =>
    simp only [hr] at hres
    exact HttpResponse.noConfusion hres

/-- C6 witness: the end-to-end mp4 scenario appends exactly one record
with `file_format = "mp4"` and the resolver's path is the served
file. -/
theorem c6_witness :
    (download_get engineOk ["dl.mp4".toList] "tmpws" 5
        (some "https://example.com/video") (some "mp4") none
        ⟨[], []⟩).state.history =
      [⟨"https://example.com/video", "mp4", "best", 5⟩] ∧
    (download_single engineOk ["dl.mp4".toList] "https://example.com/video"
        "mp4" "best" (pathJoin "tmpws".toList "dl.%(ext)s".toList)).result =
      .ok "tmpws/dl.mp4".toList := by
  exact c6_history_append engineOk ["dl.mp4".toList] "tmpws" 5
    (some "https://example.com/video") (some "mp4") none ⟨[], []⟩
    (by decide) (by decide) "tmpws/dl.mp4".toList "JustPaste.mp4" (by decide)

/-- C9: a request whose url or format is absent or empty gets the 400
`Missing parameters` response, and nothing else happens: the state is
unchanged (no workspace created, no history appended), no engine
attempt is made and no warning is logged. -/
theorem c9_missing_params (engine : Nat → Except String Unit)
    (listing : List (List Char)) (tmpName : String) (now : Nat)
    (url fmt quality : Option String) (st : AppState)
    (h : falsy url = true ∨ falsy fmt = true) :
    download_get engine listing tmpName now url fmt quality st =
      ⟨.err 400 "Missing parameters", st, 0, []⟩ := by
  unfold download_get
  rcases h with h | h <;> rw [h] <;> simp

/-- C9 witness: a request with no url at all is rejected with no side
effect. -/
theorem c9_witness :
    download_get engineOk [] "tmpws" 0 none (some "mp4") (some "best")
        ⟨[], []⟩ =
      ⟨.err 400 "Missing parameters", ⟨[], []⟩, 0, []⟩ :=
  c9_missing_params engineOk [] "tmpws" 0 none (some "mp4") (some "best")
    ⟨[], []⟩ (Or.inl rfl)

/-- C8: the history query renders, for every state of the store, all
stored records (the sorted list is a permutation of the store) ordered
newest-first (sorted with respect to descending timestamp), and each
rendered record's timestamp field is the record's UTC timestamp passed
through `isoformat` and suffixed with `Z`. -/
theorem c8_history_query (iso : Nat → String) (store : List HistoryRecord) :
    history_endpoint iso store =
      (List.insertionSort tsGe store).map (as_dict iso) ∧
    (List.insertionSort tsGe store).Perm store ∧
    List.Sorted tsGe (List.insertionSort tsGe store) ∧
    ∀ r : HistoryRecord,
      as_dict iso r = ⟨r.url, r.file_format, r.quality,
        iso r.timestamp ++ "Z"⟩ :=
  ⟨rfl, List.perm_insertionSort tsGe store,
    List.sorted_insertionSort tsGe store, fun _ => rfl⟩

/-- C7: `get_ydl_opts` never reads its `quality` argument, so any two
quality values produce identical configs for every format (in
particular every supported one): the quality parameter is accepted but
never differentiated. -/
theorem c7_quality_not_differentiated (file_format q₁ q₂ : String)
    (t : List Char) :
    get_ydl_opts file_format q₁ t = get_ydl_opts file_format q₂ t := rfl

end JustPaste
